import Mathlib

/-!
Verification of the Account REST microservice (`service/routes.py`) against
its specification.  The route handlers are embedded shallowly as pure
functions from a store state and a request to an HTTP response and a new
store state.  The persistence layer (`service/models.py`, the `Account`
model with `create` / `find` / `all` / `delete` / `deserialize` /
`serialize`) is not part of the sources; those operations are modelled
from the specification, as marked on each definition.
-/

namespace AccountService

/-- An account record: server-assigned identifier, required name / email /
address, optional phone number, and the server-assigned join date
(modelled as a natural number of days). -/
structure Account where
  id : Nat
  name : String
  email : String
  address : String
  phone_number : Option String
  date_joined : Nat
deriving Repr, DecidableEq

/-- The backing store: the persisted accounts in insertion order, plus the
next identifier the store will assign. -/
structure AccountStore where
  accounts : List Account
  nextId : Nat
deriving Repr, DecidableEq

/-- A JSON request body for create / update: each field may be absent. -/
structure RequestBody where
  name : Option String
  email : Option String
  address : Option String
  phone_number : Option String
deriving Repr, DecidableEq

/-- An inbound HTTP request: the Content-Type header (absent when the
header is missing) and the parsed JSON body. -/
structure HttpRequest where
  contentType : Option String
  body : RequestBody
deriving Repr, DecidableEq

/-- A response body: empty, a single serialized account, a list of
serialized accounts, or an error (with the abort message when one is
given in the source). -/
inductive ResponseBody where
  | empty : ResponseBody
  | account : Account → ResponseBody
  | accounts : List Account → ResponseBody
  | error : Option String → ResponseBody
deriving Repr, DecidableEq

/-- An HTTP response: status code and body. -/
structure HttpResponse where
  status : Nat
  body : ResponseBody
deriving Repr, DecidableEq

def HTTP_200_OK : Nat := 200

def HTTP_201_CREATED : Nat := 201

def HTTP_204_NO_CONTENT : Nat := 204

def HTTP_400_BAD_REQUEST : Nat := 400

def HTTP_404_NOT_FOUND : Nat := 404

def HTTP_405_METHOD_NOT_ALLOWED : Nat := 405

def HTTP_415_UNSUPPORTED_MEDIA_TYPE : Nat := 415

/-- Modelled from the spec: the find-by-id primitive of the store returns the
single entity with the given identifier, or absence
(`service/models.py` is not among the sources). -/
def Account.find (s : AccountStore) (accountId : Nat) : Option Account :=
  s.accounts.find? (fun a => a.id == accountId)

/-- Modelled from the spec: the list-all primitive of the store returns the
full ordered-by-insertion sequence of persisted accounts. -/
def Account.all (s : AccountStore) : List Account :=
  s.accounts

/-- Modelled from the spec: the create primitive of the store assigns the
identifier and the join date and persists the account. -/
def Account.create (s : AccountStore) (a : Account) (today : Nat) :
    Account × AccountStore :=
  let created : Account := { a with id := s.nextId, date_joined := today }
  (created, { accounts := s.accounts ++ [created], nextId := s.nextId + 1 })

/-- Remove the first account with the given identifier from a list.
With unique identifiers this is exactly the deletion of the stored row. -/
def removeById : List Account → Nat → List Account
  | [], _ => []
  | a :: rest, accountId =>
      if a.id = accountId then rest else a :: removeById rest accountId

/-- Modelled from the spec: the delete primitive of the store removes the
entity if present (the found row is deleted from the table). -/
def Account.delete (s : AccountStore) (accountId : Nat) : AccountStore :=
  { s with accounts := removeById s.accounts accountId }

/-- Replace the first account with the given identifier in a list: the
found row is a live object of the store, so mutating its fields updates
the stored entry in place. -/
def replaceById : List Account → Nat → Account → List Account
  | [], _, _ => []
  | a :: rest, accountId, upd =>
      if a.id = accountId then upd :: rest
      else a :: replaceById rest accountId upd

/-- Modelled from the spec: deserialization parses the body into the
account, failing with a validation error when a required field (name,
email, address) is missing; phone_number is optional; the identifier and
the join date are never taken from the body (PUT is full replacement of
fields except identifier and date_joined). -/
def Account.deserialize (a : Account) (body : RequestBody) : Option Account :=
  match body.name, body.email, body.address with
  | some n, some e, some addr =>
      some { a with
              name := n, email := e, address := addr,
              phone_number := body.phone_number }
  | _, _, _ => none

/-- Modelled from the spec: serialization returns the attributes of the
account as a JSON object; the JSON object is represented by the
record itself. -/
def Account.serialize (a : Account) : Account := a

/-- The account obtained by overwriting the mutable fields of `orig`
with the given name, email, address and the phone number of the body; used
to state what a successful deserialization produces. -/
def overwrite (orig : Account) (body : RequestBody) (n e addr : String) :
    Account :=
  { orig with
    name := n, email := e, address := addr,
    phone_number := body.phone_number }

/-- A fresh `Account()` as constructed at the top of the create handler,
before deserialization fills its fields. -/
def blankAccount : Account :=
  { id := 0, name := "", email := "", address := "",
    phone_number := none, date_joined := 0 }

/-- Embeds `check_content_type` of `service/routes.py`: the request is
accepted when the Content-Type header is present, truthy (non-empty) and
equal to the expected media type; otherwise the handler aborts with 415. -/
def check_content_type (media_type : String) (content_type : Option String) :
    Bool :=
  match content_type with
  | some ct => (ct != "") && (ct == media_type)
  | none => false

/-- Embeds `create_accounts` of `service/routes.py`: checks the content
type, deserializes the posted body into a fresh account, persists it,
and returns the serialized account with 201; aborts with 415 before any
body parsing on a wrong content type, and with 400 when deserialization
fails. -/
def create_accounts (s : AccountStore) (req : HttpRequest) (today : Nat) :
    HttpResponse × AccountStore :=
  if check_content_type "application/json" req.contentType then
    match blankAccount.deserialize req.body with
    | some account =>
        let res := Account.create s account today
        ({ status := HTTP_201_CREATED, body := .account res.1.serialize },
         res.2)
    | none => ({ status := HTTP_400_BAD_REQUEST, body := .error none }, s)
  else
    ({ status := HTTP_415_UNSUPPORTED_MEDIA_TYPE,
       body := .error (some "Content-Type must be application/json") }, s)

/-- Embeds `list_accounts` of `service/routes.py`: returns the empty list
with 200 when no accounts exist, otherwise the serialized accounts
with 200. -/
def list_accounts (s : AccountStore) : HttpResponse × AccountStore :=
  let accounts := Account.all s
  if accounts.length = 0 then
    ({ status := HTTP_200_OK, body := .accounts [] }, s)
  else
    ({ status := HTTP_200_OK,
       body := .accounts (accounts.map Account.serialize) }, s)

/-- Embeds `read_account` of `service/routes.py`: looks up by identifier,
returns the serialized account with 200 when found, otherwise aborts
with 404. -/
def read_account (s : AccountStore) (accountId : Nat) :
    HttpResponse × AccountStore :=
  match Account.find s accountId with
  | some account =>
      ({ status := HTTP_200_OK, body := .account account.serialize }, s)
  | none => ({ status := HTTP_404_NOT_FOUND, body := .error none }, s)

/-- Embeds `update_account` of `service/routes.py`: looks up by
identifier; when found, deserializes the body into the live stored
object (updating the stored entry in place) and returns the serialized
account with 200; when deserialization raises a validation error the
request fails with 400; when the identifier is absent it aborts
with 404. -/
def update_account (s : AccountStore) (account_id : Nat) (req : HttpRequest) :
    HttpResponse × AccountStore :=
  match Account.find s account_id with
  | some account =>
      match account.deserialize req.body with
      | some updated =>
          ({ status := HTTP_200_OK, body := .account updated.serialize },
           { s with accounts := replaceById s.accounts account_id updated })
      | none => ({ status := HTTP_400_BAD_REQUEST, body := .error none }, s)
  | none => ({ status := HTTP_404_NOT_FOUND, body := .error none }, s)

/-- Embeds `delete_account` of `service/routes.py`: looks up by
identifier; when found, deletes the account and returns 204 with empty
body.  When the identifier is absent, the handler falls through without
any return statement, so it produces no response (`none`). -/
def delete_account (s : AccountStore) (account_id : Nat) :
    Option HttpResponse × AccountStore :=
  match Account.find s account_id with
  | some _ =>
      (some { status := HTTP_204_NO_CONTENT, body := .empty },
       Account.delete s account_id)
  | none => (none, s)

/-- A request body has all fields the spec requires for deserialization
to succeed. -/
def RequestBody.hasRequired (b : RequestBody) : Bool :=
  b.name.isSome && b.email.isSome && b.address.isSome

/-- A well-formed store: identifiers are unique (server-assigned) and all
strictly below the next identifier the store will assign. -/
def AccountStore.wf (s : AccountStore) : Prop :=
  (s.accounts.map Account.id).Nodup ∧ ∀ a ∈ s.accounts, a.id < s.nextId

instance (s : AccountStore) : Decidable s.wf := by
  unfold AccountStore.wf
  infer_instance

/-- Folding the create handler over a list of requests, as the test
helper creates accounts in bulk. -/
def createMany (s : AccountStore) (reqs : List HttpRequest) (today : Nat) :
    AccountStore :=
  reqs.foldl (fun st r => (create_accounts st r today).2) s

/-- Sample persisted account used in concrete witnesses. -/
def acct1 : Account :=
  { id := 1, name := "Sam", email := "sam@x.com", address := "1 Rd",
    phone_number := some "555-0100", date_joined := 10 }

/-- Sample one-account store used in concrete witnesses. -/
def store1 : AccountStore := { accounts := [acct1], nextId := 2 }

/-- Sample body missing the required email field. -/
def badBody : RequestBody :=
  { name := some "New", email := none, address := some "2 Rd",
    phone_number := none }

/-- Sample body with every field present. -/
def goodBody : RequestBody :=
  { name := some "New", email := some "new@x.com", address := some "2 Rd",
    phone_number := some "555-0199" }

/-- Finding an identifier no element of the list carries yields nothing. -/
theorem find_eq_none_of_forall_ne (l : List Account) (accountId : Nat)
    (h : ∀ a ∈ l, a.id ≠ accountId) :
    l.find? (fun a => a.id == accountId) = none := by
  rw [List.find?_eq_none]
  intro a ha
  simpa using h a ha

/-- Appending a fresh-identifier account makes it the one found. -/
theorem find_append_fresh (l : List Account) (c : Account)
    (h : ∀ a ∈ l, a.id ≠ c.id) :
    (l ++ [c]).find? (fun a => a.id == c.id) = some c := by
  induction l with
  | nil => simp
  | cons a rest ih =>
      have ha : (a.id == c.id) = false := by
        simpa using h a (List.mem_cons_self a rest)
      simp only [List.cons_append, List.find?_cons, ha]
      exact ih (fun b hb => h b (List.mem_cons_of_mem a hb))

/-- Removing the only account with an identifier makes it unfindable. -/
theorem find_removeById_eq_none (l : List Account) (accountId : Nat)
    (h : (l.map Account.id).Nodup) :
    (removeById l accountId).find? (fun a => a.id == accountId) = none := by
  induction l with
  | nil => simp [removeById]
  | cons a rest ih =>
      simp only [List.map_cons, List.nodup_cons] at h
      by_cases hid : a.id = accountId
      · rw [removeById, if_pos hid]
        refine find_eq_none_of_forall_ne rest accountId (fun b hb hbid => ?_)
        apply h.1
        have hmem : b.id ∈ rest.map Account.id :=
          List.mem_map_of_mem Account.id hb
        rwa [hbid, ← hid] at hmem
      · rw [removeById, if_neg hid]
        have hid' : (a.id == accountId) = false := by simpa using hid
        simp only [List.find?_cons, hid']
        exact ih h.2

/-- Replacing the found account by one with the same identifier makes the
replacement the one found. -/
theorem find_replaceById (l : List Account) (accountId : Nat)
    (a upd : Account)
    (hfind : l.find? (fun b => b.id == accountId) = some a)
    (hupd : upd.id = accountId) :
    (replaceById l accountId upd).find? (fun b => b.id == accountId) =
      some upd := by
  induction l with
  | nil => simp at hfind
  | cons b rest ih =>
      by_cases hid : b.id = accountId
      · rw [replaceById, if_pos hid]
        have hupd' : (upd.id == accountId) = true := by simpa using hupd
        simp only [List.find?_cons, hupd']
      · rw [replaceById, if_neg hid]
        have hid' : (b.id == accountId) = false := by simpa using hid
        simp only [List.find?_cons, hid'] at hfind ⊢
        exact ih hfind

/-- An account returned by find carries the identifier searched for. -/
theorem find_some_id (s : AccountStore) (accountId : Nat) (a : Account)
    (h : Account.find s accountId = some a) : a.id = accountId := by
  have := List.find?_some h
  simpa using this

/-- A found account is a member of the store. -/
theorem find_some_mem (s : AccountStore) (accountId : Nat) (a : Account)
    (h : Account.find s accountId = some a) : a ∈ s.accounts :=
  List.mem_of_find?_eq_some h

/-- Deserialization never touches the identifier or the join date. -/
theorem deserialize_preserves_id_and_date (a upd : Account)
    (body : RequestBody) (h : a.deserialize body = some upd) :
    upd.id = a.id ∧ upd.date_joined = a.date_joined := by
  unfold Account.deserialize at h
  rcases hn : body.name with _ | n <;> rcases he : body.email with _ | e <;>
    rcases ha : body.address with _ | addr <;> rw [hn, he, ha] at h <;>
    simp at h
  rw [← h]
  exact ⟨rfl, rfl⟩

/-- A rejected content type makes the check fail. -/
theorem check_content_type_eq_false (ct : Option String)
    (h : ct ≠ some "application/json") :
    check_content_type "application/json" ct = false := by
  cases ct with
  | none => rfl
  | some c =>
      have hc : c ≠ "application/json" := fun hh => h (by rw [hh])
      simp [check_content_type, hc]

/-- A successful create appends exactly one account to the store. -/
theorem create_success_length (s : AccountStore) (req : HttpRequest)
    (today : Nat)
    (hct : check_content_type "application/json" req.contentType = true)
    (hreq : req.body.hasRequired = true) :
    ((create_accounts s req today).2).accounts.length =
      s.accounts.length + 1 := by
  rcases hn : req.body.name with _ | n
  · simp [RequestBody.hasRequired, hn] at hreq
  rcases he : req.body.email with _ | e
  · simp [RequestBody.hasRequired, he] at hreq
  rcases ha : req.body.address with _ | addr
  · simp [RequestBody.hasRequired, ha] at hreq
  simp [create_accounts, hct, Account.deserialize, hn, he, ha, Account.create]

/-- Creating a batch of accepted, valid requests grows the store by the
batch size. -/
theorem createMany_length (reqs : List HttpRequest) :
    ∀ (s : AccountStore) (today : Nat),
      (∀ r ∈ reqs,
        check_content_type "application/json" r.contentType = true ∧
        r.body.hasRequired = true) →
      (createMany s reqs today).accounts.length =
        s.accounts.length + reqs.length := by
  induction reqs with
  | nil => intro s today _; simp [createMany]
  | cons r rest ih =>
      intro s today h
      have hr := h r (List.mem_cons_self r rest)
      have hstep : createMany s (r :: rest) today =
          createMany (create_accounts s r today).2 rest today := by
        simp [createMany]
      rw [hstep, ih _ today (fun q hq => h q (List.mem_cons_of_mem r hq)),
          create_success_length s r today hr.1 hr.2]
      simp [List.length_cons]
      omega

/-- C1: in `delete_account` of routes.py, when the identifier is absent
from the store the handler takes no action and falls through without a
return statement, so it produces no response at all; the store is
unchanged.  This refutes the claim that the operation still returns an
HTTP 204 success: there is no success return on the absent path. -/
theorem C1_delete_missing_id_no_response :
    ∀ (s : AccountStore) (accountId : Nat),
      Account.find s accountId = none →
      delete_account s accountId = (none, s) := by
  intro s accountId h
  simp [delete_account, h]

/-- C1 witness: deleting identifier 5 from the empty store produces no
response and leaves the store unchanged. -/
theorem C1_delete_missing_id_no_response_witness :
    delete_account { accounts := [], nextId := 1 } 5 =
      (none, { accounts := [], nextId := 1 }) :=
  C1_delete_missing_id_no_response { accounts := [], nextId := 1 } 5 (by decide)

/-- C2 counterexample: identifier 1 is present in the store, yet an
update whose body is missing the required email field returns 400 with
the store unchanged, so update does not overwrite and return 200 for
every request body. -/
theorem C2_counterexample_update_invalid_body :
    Account.find store1 1 = some acct1 ∧
    update_account store1 1
        { contentType := some "application/json", body := badBody } =
      ({ status := HTTP_400_BAD_REQUEST, body := .error none }, store1) := by
  decide

/-- C2 (amended): for every identifier present in the store and every
request body carrying the required name, email and address fields,
update overwrites the mutable account fields from the body, persists
the result into the store, and returns the serialized updated account
with status 200; a subsequent read observes the updated fields. -/
theorem C2_update_overwrites_and_persists :
    ∀ (s : AccountStore) (accountId : Nat) (req : HttpRequest)
      (orig : Account) (n e addr : String),
      Account.find s accountId = some orig →
      req.body.name = some n →
      req.body.email = some e →
      req.body.address = some addr →
      (update_account s accountId req).1 =
        { status := HTTP_200_OK,
          body := .account (overwrite orig req.body n e addr) } ∧
      Account.find (update_account s accountId req).2 accountId =
        some (overwrite orig req.body n e addr) ∧
      read_account (update_account s accountId req).2 accountId =
        ({ status := HTTP_200_OK,
           body := .account (overwrite orig req.body n e addr) },
         (update_account s accountId req).2) := by
  intro s accountId req orig n e addr hfind hn he haddr
  have horig : orig.id = accountId := find_some_id s accountId orig hfind
  have hdeser : orig.deserialize req.body =
      some (overwrite orig req.body n e addr) := by
    simp [Account.deserialize, overwrite, hn, he, haddr]
  have hrun : update_account s accountId req =
      ({ status := HTTP_200_OK,
         body := .account (overwrite orig req.body n e addr) },
       { s with accounts :=
           replaceById s.accounts accountId (overwrite orig req.body n e addr) }) := by
    simp [update_account, hfind, hdeser, Account.serialize]
  have hupd_id : (overwrite orig req.body n e addr).id = accountId := by
    rw [overwrite]
    exact horig
  have hfind2 : Account.find (update_account s accountId req).2 accountId =
      some (overwrite orig req.body n e addr) := by
    rw [hrun]
    exact find_replaceById s.accounts accountId orig _ hfind hupd_id
  refine ⟨by rw [hrun], hfind2, ?_⟩
  simp [read_account, hfind2, Account.serialize]

/-- C2 amended-claim witness: updating account 1 of the sample store
with a complete body overwrites the fields, persists, and a subsequent
read observes them. -/
theorem C2_update_overwrites_and_persists_witness :
    (update_account store1 1
        { contentType := some "application/json", body := goodBody }).1 =
      { status := HTTP_200_OK,
        body := .account (overwrite acct1 goodBody "New" "new@x.com" "2 Rd") } ∧
    Account.find (update_account store1 1
        { contentType := some "application/json", body := goodBody }).2 1 =
      some (overwrite acct1 goodBody "New" "new@x.com" "2 Rd") ∧
    read_account (update_account store1 1
        { contentType := some "application/json", body := goodBody }).2 1 =
      ({ status := HTTP_200_OK,
         body := .account (overwrite acct1 goodBody "New" "new@x.com" "2 Rd") },
       (update_account store1 1
          { contentType := some "application/json", body := goodBody }).2) :=
  C2_update_overwrites_and_persists store1 1
    { contentType := some "application/json", body := goodBody }
    acct1 "New" "new@x.com" "2 Rd" (by decide) rfl rfl rfl

/-- C3: after any successful (status 200) update of a present account,
both the account in the response body and the account now stored under
the identifier carry the identifier and join date they had before the
update, whatever the request body contained. -/
theorem C3_update_preserves_id_and_date_joined :
    ∀ (s : AccountStore) (accountId : Nat) (req : HttpRequest)
      (resp : HttpResponse) (s2 : AccountStore) (orig : Account),
      update_account s accountId req = (resp, s2) →
      resp.status = HTTP_200_OK →
      Account.find s accountId = some orig →
      (∀ upd : Account, resp.body = .account upd →
        upd.id = orig.id ∧ upd.date_joined = orig.date_joined) ∧
      (∀ upd : Account, Account.find s2 accountId = some upd →
        upd.id = orig.id ∧ upd.date_joined = orig.date_joined) := by
  intro s accountId req resp s2 orig hrun h200 hfind
  rcases hd : orig.deserialize req.body with _ | updd
  · simp only [update_account, hfind, hd] at hrun
    rw [Prod.mk.injEq] at hrun
    rw [← hrun.1] at h200
    exact absurd h200 (by decide)
  · have hpres := deserialize_preserves_id_and_date orig updd req.body hd
    simp only [update_account, hfind, hd, Account.serialize] at hrun
    rw [Prod.mk.injEq] at hrun
    obtain ⟨hresp, hs2⟩ := hrun
    have horig : orig.id = accountId := find_some_id s accountId orig hfind
    have hfind2 : Account.find s2 accountId = some updd := by
      rw [← hs2]
      exact find_replaceById s.accounts accountId orig updd hfind
        (hpres.1.trans horig)
    constructor
    · intro upd hbody
      rw [← hresp] at hbody
      simp only [ResponseBody.account.injEq] at hbody
      rw [← hbody]
      exact hpres
    · intro upd hupd
      rw [hfind2] at hupd
      injection hupd with hupd
      rw [← hupd]
      exact hpres

/-- C3 witness: updating account 1 of the sample store succeeds with 200
and the response account keeps the original identifier and join date. -/
theorem C3_update_preserves_id_and_date_joined_witness :
    (overwrite acct1 goodBody "New" "new@x.com" "2 Rd").id = acct1.id ∧
    (overwrite acct1 goodBody "New" "new@x.com" "2 Rd").date_joined =
      acct1.date_joined :=
  (C3_update_preserves_id_and_date_joined store1 1
      { contentType := some "application/json", body := goodBody }
      { status := HTTP_200_OK,
        body := .account (overwrite acct1 goodBody "New" "new@x.com" "2 Rd") }
      { accounts := [overwrite acct1 goodBody "New" "new@x.com" "2 Rd"],
        nextId := 2 }
      acct1 (by decide) rfl (by decide)).1
    (overwrite acct1 goodBody "New" "new@x.com" "2 Rd") rfl

/-- C4: for every well-formed store and every payload with the required
fields present, create returns 201 with an account whose name, email,
address and phone number come from the payload and whose identifier and
join date are server-assigned, and reading that identifier afterwards
returns 200 with that very account, the store unchanged by the read. -/
theorem C4_create_then_read :
    ∀ (s : AccountStore) (body : RequestBody) (today : Nat)
      (n e addr : String),
      s.wf →
      body.name = some n → body.email = some e → body.address = some addr →
      (create_accounts s
          { contentType := some "application/json", body := body } today).1 =
        { status := HTTP_201_CREATED,
          body := .account
            { id := s.nextId, name := n, email := e, address := addr,
              phone_number := body.phone_number, date_joined := today } } ∧
      read_account
          (create_accounts s
            { contentType := some "application/json", body := body } today).2
          s.nextId =
        ({ status := HTTP_200_OK,
           body := .account
             { id := s.nextId, name := n, email := e, address := addr,
               phone_number := body.phone_number, date_joined := today } },
         (create_accounts s
            { contentType := some "application/json", body := body } today).2) := by
  intro s body today n e addr hwf hn he haddr
  have hct : check_content_type "application/json" (some "application/json") =
      true := by decide
  have hdeser : blankAccount.deserialize body =
      some { blankAccount with
        name := n, email := e, address := addr,
        phone_number := body.phone_number } := by
    simp [Account.deserialize, hn, he, haddr]
  have hrun : create_accounts s
      { contentType := some "application/json", body := body } today =
      ({ status := HTTP_201_CREATED,
         body := .account
           { id := s.nextId, name := n, email := e, address := addr,
             phone_number := body.phone_number, date_joined := today } },
       { accounts := s.accounts ++
           [{ id := s.nextId, name := n, email := e, address := addr,
              phone_number := body.phone_number, date_joined := today }],
         nextId := s.nextId + 1 }) := by
    simp [create_accounts, hct, hdeser, Account.create, Account.serialize]
  have hfresh : ∀ a ∈ s.accounts,
      a.id ≠ (Account.mk s.nextId n e addr body.phone_number today).id := by
    intro a ha h
    have := hwf.2 a ha
    simp only at h
    omega
  have hfind2 : Account.find
      { accounts := s.accounts ++
          [{ id := s.nextId, name := n, email := e, address := addr,
             phone_number := body.phone_number, date_joined := today }],
        nextId := s.nextId + 1 } s.nextId =
      some { id := s.nextId, name := n, email := e, address := addr,
             phone_number := body.phone_number, date_joined := today } :=
    find_append_fresh s.accounts
      (Account.mk s.nextId n e addr body.phone_number today) hfresh
  refine ⟨by rw [hrun], ?_⟩
  rw [hrun]
  simp [read_account, hfind2, Account.serialize]

/-- C4 witness: creating a full payload in the sample store and reading
the returned identifier yields the same record with 200. -/
theorem C4_create_then_read_witness :
    (create_accounts store1
        { contentType := some "application/json", body := goodBody } 20).1 =
      { status := HTTP_201_CREATED,
        body := .account
          { id := store1.nextId, name := "New", email := "new@x.com",
            address := "2 Rd", phone_number := goodBody.phone_number,
            date_joined := 20 } } ∧
    read_account
        (create_accounts store1
          { contentType := some "application/json", body := goodBody } 20).2
        store1.nextId =
      ({ status := HTTP_200_OK,
         body := .account
           { id := store1.nextId, name := "New", email := "new@x.com",
             address := "2 Rd", phone_number := goodBody.phone_number,
             date_joined := 20 } },
       (create_accounts store1
          { contentType := some "application/json", body := goodBody } 20).2) :=
  C4_create_then_read store1 goodBody 20 "New" "new@x.com" "2 Rd"
    (by decide) rfl rfl rfl

/-- C5: the content-type check belongs to create alone and runs before
body parsing: create with any content type other than application/json
returns 415 with the store unchanged whatever the body holds, while the
result of the update handler never depends on the request content type. -/
theorem C5_content_type_check_only_on_create :
    (∀ (s : AccountStore) (ct : Option String) (b : RequestBody)
       (today : Nat),
       ct ≠ some "application/json" →
       create_accounts s { contentType := ct, body := b } today =
         ({ status := HTTP_415_UNSUPPORTED_MEDIA_TYPE,
            body := .error (some "Content-Type must be application/json") },
          s)) ∧
    (∀ (s : AccountStore) (accountId : Nat) (ct ct2 : Option String)
       (b : RequestBody),
       update_account s accountId { contentType := ct, body := b } =
         update_account s accountId { contentType := ct2, body := b }) := by
  constructor
  · intro s ct b today hct
    simp [create_accounts, check_content_type_eq_false ct hct]
  · intro s accountId ct ct2 b
    rfl

/-- C5 witness: a create with content type text/html is rejected with
415 and the empty store is unchanged. -/
theorem C5_content_type_check_only_on_create_witness :
    create_accounts { accounts := [], nextId := 1 }
        { contentType := some "text/html", body := goodBody } 20 =
      ({ status := HTTP_415_UNSUPPORTED_MEDIA_TYPE,
         body := .error (some "Content-Type must be application/json") },
       { accounts := [], nextId := 1 }) :=
  C5_content_type_check_only_on_create.1 { accounts := [], nextId := 1 }
    (some "text/html") goodBody 20 (by decide)

/-- C6: a read returns 200 exactly when the identifier is present (and
then carries the serialized stored account) and 404 exactly when it is
absent; in both cases the store is unchanged. -/
theorem C6_read_success_iff_present :
    ∀ (s : AccountStore) (accountId : Nat),
      (read_account s accountId).2 = s ∧
      ((read_account s accountId).1.status = HTTP_200_OK ↔
        (Account.find s accountId).isSome = true) ∧
      ((read_account s accountId).1.status = HTTP_404_NOT_FOUND ↔
        Account.find s accountId = none) ∧
      (∀ a : Account, Account.find s accountId = some a →
        (read_account s accountId).1 =
          { status := HTTP_200_OK, body := .account a.serialize }) := by
  intro s accountId
  rcases h : Account.find s accountId with _ | a
  · refine ⟨by simp [read_account, h], ?_, ?_, ?_⟩
    · simp [read_account, h, HTTP_200_OK, HTTP_404_NOT_FOUND]
    · simp [read_account, h]
    · intro a ha
      exact absurd ha (by simp)
  · refine ⟨by simp [read_account, h], ?_, ?_, ?_⟩
    · simp [read_account, h]
    · simp [read_account, h, HTTP_200_OK, HTTP_404_NOT_FOUND]
    · intro b hb
      injection hb with hb
      rw [← hb]
      simp [read_account, h]

/-- C6 witness: reading the present identifier 1 of the sample store
returns 200 with the serialized stored account. -/
theorem C6_read_success_iff_present_witness :
    (read_account store1 1).1 =
      { status := HTTP_200_OK, body := .account acct1.serialize } :=
  (C6_read_success_iff_present store1 1).2.2.2 acct1 (by decide)

/-- Two accepted, valid create requests, used to witness bulk creation. -/
def reqList : List HttpRequest :=
  [{ contentType := some "application/json", body := goodBody },
   { contentType := some "application/json", body := goodBody }]

/-- C7: the list operation always succeeds with 200 and returns exactly
the persisted accounts — the empty store yields the empty sequence, and
creating a batch of N valid accounts grows the returned sequence by N. -/
theorem C7_list_returns_exactly_persisted :
    (∀ s : AccountStore,
       list_accounts s =
         ({ status := HTTP_200_OK, body := .accounts (Account.all s) }, s)) ∧
    (list_accounts { accounts := [], nextId := 1 } =
       ({ status := HTTP_200_OK, body := .accounts [] },
        { accounts := [], nextId := 1 })) ∧
    (∀ (s : AccountStore) (reqs : List HttpRequest) (today : Nat),
       (∀ r ∈ reqs,
          check_content_type "application/json" r.contentType = true ∧
          r.body.hasRequired = true) →
       (createMany s reqs today).accounts.length =
         s.accounts.length + reqs.length) := by
  refine ⟨?_, ?_, ?_⟩
  · intro s
    by_cases hlen : (Account.all s).length = 0
    · have hnil : Account.all s = [] := List.length_eq_zero.mp hlen
      simp [list_accounts, hlen, hnil]
    · have hmap : ∀ l : List Account, l.map Account.serialize = l := by
        intro l
        induction l with
        | nil => rfl
        | cons a t ih => simp [Account.serialize, ih]
      simp [list_accounts, hlen, hmap]
  · rfl
  · exact fun s reqs today h => createMany_length reqs s today h

/-- C7 witness: creating two valid accounts in the empty store makes the
store hold exactly two entries. -/
theorem C7_list_returns_exactly_persisted_witness :
    (createMany { accounts := [], nextId := 1 } reqList 20).accounts.length =
      ({ accounts := [], nextId := 1 } : AccountStore).accounts.length +
        reqList.length :=
  C7_list_returns_exactly_persisted.2.2 { accounts := [], nextId := 1 }
    reqList 20 (by decide)

/-- C8: deleting a present identifier returns 204 with empty body and
removes the account, so a subsequent read of the same identifier
returns 404. -/
theorem C8_delete_then_read_not_found :
    ∀ (s : AccountStore) (accountId : Nat) (a : Account),
      s.wf →
      Account.find s accountId = some a →
      (delete_account s accountId).1 =
        some { status := HTTP_204_NO_CONTENT, body := .empty } ∧
      read_account (delete_account s accountId).2 accountId =
        ({ status := HTTP_404_NOT_FOUND, body := .error none },
         (delete_account s accountId).2) := by
  intro s accountId a hwf hfind
  have h1 : delete_account s accountId =
      (some { status := HTTP_204_NO_CONTENT, body := .empty },
       Account.delete s accountId) := by
    simp [delete_account, hfind]
  have h2 : Account.find (Account.delete s accountId) accountId = none :=
    find_removeById_eq_none s.accounts accountId hwf.1
  rw [h1]
  simp [read_account, h2]

/-- C8 witness: deleting account 1 of the sample store returns 204 and
reading identifier 1 afterwards returns 404. -/
theorem C8_delete_then_read_not_found_witness :
    (delete_account store1 1).1 =
      some { status := HTTP_204_NO_CONTENT, body := .empty } ∧
    read_account (delete_account store1 1).2 1 =
      ({ status := HTTP_404_NOT_FOUND, body := .error none },
       (delete_account store1 1).2) :=
  C8_delete_then_read_not_found store1 1 acct1 (by decide) (by decide)

/-- C9: whenever create fails — 415 on a wrong content type or 400 on a
failed deserialization — the store after the request equals the store
before it: both checks run before the create primitive of the store is invoked. -/
theorem C9_failed_create_leaves_store_unchanged :
    ∀ (s : AccountStore) (req : HttpRequest) (today : Nat),
      (create_accounts s req today).1.status =
          HTTP_415_UNSUPPORTED_MEDIA_TYPE ∨
        (create_accounts s req today).1.status = HTTP_400_BAD_REQUEST →
      (create_accounts s req today).2 = s := by
  intro s req today h
  by_cases hct : check_content_type "application/json" req.contentType
  · rcases hd : blankAccount.deserialize req.body with _ | acc
    · simp [create_accounts, hct, hd]
    · exfalso
      simp [create_accounts, hct, hd, Account.create, HTTP_201_CREATED,
        HTTP_415_UNSUPPORTED_MEDIA_TYPE, HTTP_400_BAD_REQUEST] at h
  · simp [create_accounts, hct]

/-- C9 witness: a create rejected for its content type leaves the sample
store unchanged. -/
theorem C9_failed_create_leaves_store_unchanged_witness :
    (create_accounts store1
        { contentType := some "text/html", body := goodBody } 20).2 =
      store1 :=
  C9_failed_create_leaves_store_unchanged store1
    { contentType := some "text/html", body := goodBody } 20 (by decide)

/-- C10: the content-type check accepts exactly a present header equal
to the string application/json; a missing header or a media type with
parameters (application/json; charset=utf-8) makes create fail
with 415. -/
theorem C10_content_type_exact_match :
    (∀ ct : Option String,
       check_content_type "application/json" ct = true ↔
         ct = some "application/json") ∧
    (∀ (s : AccountStore) (b : RequestBody) (today : Nat),
       (create_accounts s { contentType := none, body := b } today).1.status =
         HTTP_415_UNSUPPORTED_MEDIA_TYPE) ∧
    (∀ (s : AccountStore) (b : RequestBody) (today : Nat),
       (create_accounts s
          { contentType := some "application/json; charset=utf-8", body := b }
          today).1.status = HTTP_415_UNSUPPORTED_MEDIA_TYPE) := by
  refine ⟨?_, ?_, ?_⟩
  · intro ct
    constructor
    · intro h
      by_contra hne
      rw [check_content_type_eq_false ct hne] at h
      exact absurd h (by decide)
    · intro h
      rw [h]
      decide
  · intro s b today
    simp [create_accounts, check_content_type]
  · intro s b today
    have hfalse : check_content_type "application/json"
        (some "application/json; charset=utf-8") = false := by decide
    simp [create_accounts, hfalse]

end AccountService
